import Mathlib

/-!
Shallow embedding of the cgc-rs garbage collector core
(src/gc_box.rs, src/frame.rs, src/state.rs, src/trace.rs).

Modelling conventions:
- raw pointers (`*mut GCHeader`) are addresses, modelled as `Nat`;
- `DashSet` membership sets are modelled as `List` with membership;
- atomics (`AtomicUsize`, `AtomicBool`, `AtomicU8`) are plain fields:
  the embedding is sequential, one operation at a time;
- `usize` arithmetic wraps modulo `2 ^ 64` (`AtomicUsize::fetch_add`
  has wrapping semantics);
- a Rust `panic!` / failed `expect` / `unimplemented!` is modelled as an
  `Option String` panic-message component of the operation's result,
  carrying the panic message; `none` means normal completion;
- the `Monitoring` callback object is modelled by the list of callback
  events an operation emits, in invocation order;
- the `rayon` thread pool is an opaque execution resource touched by no
  operation embedded here and is omitted from `State`.
-/

namespace CgcRs

/-- A raw address (`*mut GCHeader` / `*mut T` in the source). -/
abbrev Ptr := Nat

/-- `usize` modulus on a 64-bit target. -/
def USIZE : Nat := 2 ^ 64

/-- `GCHeader` (src/gc_box.rs:91-97): liveness counter, mark bit, pin bit,
generation byte (`AtomicU8`, a raw byte), and the `TypeId` tag, modelled as
a `Nat` type tag. -/
structure GCHeader where
  liveness : Nat
  marked : Bool
  pined : Bool
  generation : Nat
  type_id : Nat
deriving DecidableEq

/-- `GCHeader::init::<T>` (src/gc_box.rs:100-105): stores the type tag,
stores 1 into `liveness` and `false` into `marked`.  The `pined` and
`generation` fields are not written. -/
def GCHeader.init (h : GCHeader) (t : Nat) : GCHeader :=
  { h with type_id := t, liveness := 1, marked := false }

/-- `size_of::<GCHeader>()` on a 64-bit target for the `repr(C, align(8))`
layout: 8 (liveness) + 1 + 1 + 1 + 5 padding + 16 (`TypeId`) = 32 bytes.
Used only to form the data pointer `header_ptr.add(1)`; no claim depends
on the exact value. -/
def GCHeader.sizeBytes : Nat := 32

/-- `GCCell<T>` (src/gc_box.rs:71-75): a header pointer and a data pointer
into one block.  The `PhantomData<T>` type parameter is modelled by the
`tyTag` field; it plays no role in equality. -/
structure GCCell where
  header : Ptr
  data : Ptr
  tyTag : Nat
deriving DecidableEq

/-- `impl PartialEq for GCCell` (src/gc_box.rs:83-88): equality compares
only the header pointers. -/
def GCCell.eq (a b : GCCell) : Bool :=
  a.header == b.header

instance : BEq GCCell := ⟨GCCell.eq⟩

/-- `GCMut<T>` (src/gc_box.rs:39-42): the write-barrier guard, holding the
cell recorded at acquisition (`prev_ptr`) and the cell it dereferences
through (`end_ptr`). -/
structure GCMut where
  prev_ptr : GCCell
  end_ptr : GCCell

/-- `GCConfig` (src/state.rs:52-81). -/
structure GCConfig where
  thread_pool_size : Nat
  minor_gc_trigger_size : Nat
  minor_heap_size_limit : Nat
  major_heap_liveness : Nat
  major_gc_pacer_rate : Float
  major_heap_size_limit : Nat
  enable_imm_gen : Bool
  imm_liveness : Nat

/-- `impl Default for GCConfig` (src/state.rs:83-96); `num_cpus::get()` is
passed in as `cpus`. -/
def GCConfig.default (cpus : Nat) : GCConfig :=
  { thread_pool_size := cpus / 4
    minor_gc_trigger_size := 10 * 1024 * 1024
    minor_heap_size_limit := 100 * 1024 * 1024
    major_heap_liveness := 3
    major_gc_pacer_rate := 2.0
    major_heap_size_limit := 0
    enable_imm_gen := false
    imm_liveness := 100 }

/-- `State` (src/state.rs:102-151): configuration, collect flags, atomic
size counters, and the generation membership sets.  The `monitoring`
backend is modelled by emitted events, and the `rayon_pool` is omitted
(see the module comment). -/
structure State where
  config : GCConfig
  stw : Bool
  start_minor_gc_flag : Bool
  start_major_gc_flag : Bool
  minor_heap_size : Nat
  major_heap_size : Nat
  imm_size : Nat
  total_size : Nat
  current_frame_count : Nat
  minor_heap_roots : List Ptr
  minor_heap_gen : List Ptr
  minor_heap_marked : List Ptr
  minor_heap_dead : List Ptr
  major_heap_roots : List Ptr
  major_heap_gen : List Ptr
  major_heap_marked : List Ptr
  major_heap_rescan_list : List Ptr
  imm_gen : List Ptr

/-- `GCFrame` (src/frame.rs:16-20).  The `&'static State` reference is
passed explicitly to each operation. -/
structure GCFrame where
  registed_gc_objects : List Ptr
  escaped_gc_objects : Ptr

/-- One `Monitoring` trait callback invocation (src/state.rs:6-14). -/
inductive MonEvent
  | startMinorGc (minorHeapSize : Nat)
  | endMinorGc (minorHeapSize : Nat)
  | startMajorGc (majorHeapSize : Nat)
  | endMajorGc (majorHeapSize : Nat)
  | startStw
  | endStw
  | recordMemoryUsage (majorHeapSize minorHeapSize : Nat)
deriving DecidableEq

/-- Result of running `State::stw` or `State::ctw`: the monitoring
callbacks emitted (in order), the state of the atomics afterwards, and
the panic message if the `expect` fired. -/
structure StwOutcome where
  events : List MonEvent
  state : State
  panicMsg : Option String

/-- Panic message of `State::stw` (src/state.rs:167). -/
def fatalStwMsg : String :=
  "[FALTAL ERROR] could not stop the world twice"

/-- Panic message of `State::ctw` (src/state.rs:178). -/
def fatalCtwMsg : String :=
  "[FALTAL ERROR] failed to continue the world"

/-- Panic message of `GCFrame::allocate_gc_cell` (src/frame.rs:35). -/
def fatalAllocMsg : String :=
  "[FALTAL ERROR] failed to allocate gc cell"

/-- Panic message of `unimplemented!()`. -/
def unimplementedMsg : String :=
  "not implemented"

/-- `State::stw` (src/state.rs:158-168): first invokes
`monitoring.start_stw()`, then runs
`stw.compare_exchange(false, true, ..)` and `expect`s its result.  The
compare-exchange succeeds exactly when the flag currently holds `false`;
on failure the flag is left unchanged and the `expect` panics.  (The
source method is named `stw`, which in Lean collides with the `stw` flag
field, hence `stwOp`.) -/
def State.stwOp (s : State) : StwOutcome :=
  if s.stw = false then
    { events := [MonEvent.startStw]
      state := { s with stw := true }
      panicMsg := none }
  else
    { events := [MonEvent.startStw]
      state := s
      panicMsg := some fatalStwMsg }

/-- `State::ctw` (src/state.rs:169-179): first invokes
`monitoring.end_stw()`, then runs
`stw.compare_exchange(true, false, ..)` and `expect`s its result. -/
def State.ctw (s : State) : StwOutcome :=
  if s.stw = true then
    { events := [MonEvent.endStw]
      state := { s with stw := false }
      panicMsg := none }
  else
    { events := [MonEvent.endStw]
      state := s
      panicMsg := some fatalCtwMsg }

/-- `State::minor_heap_gen_gc` (src/state.rs:180): the body is empty
(`{}`); the function performs no state change at all. -/
def State.minor_heap_gen_gc (s : State) : State :=
  s

/-- One step of `GCFrame::allocate_gc_cell`, in source order
(src/frame.rs:23-43). -/
inductive AllocEvent
  | fetchAddMinorSize (bytes : Nat)
  | allocRaw (headerPtr : Ptr)
  | initHeader
  | writeValue
  | registerHeader (headerPtr : Ptr)
deriving DecidableEq

/-- Result of `GCFrame::allocate_gc_cell`: the collector state and frame
afterwards, the returned cell (`none` when the registration panic fired),
the contents of the header at the returned pointer, the value written to
the data slot, the steps performed in order, and the panic message if
any. -/
structure AllocOutcome (α : Type) where
  state : State
  frame : GCFrame
  cell : Option GCCell
  header : GCHeader
  dataVal : α
  events : List AllocEvent
  panicMsg : Option String

/-- `GCFrame::allocate_gc_cell::<T>` (src/frame.rs:23-43).  In source
order: computes `Layout::new::<GCCellLayout<T>>()` (its size is the
compile-time constant `layoutSize`), does
`minor_heap_size.fetch_add(layout.size())` (wrapping), calls
`alloc(layout)` — which returns an UNINITIALIZED block; the allocator's
choice of address and of leftover header bytes enter as `headerPtr` and
`garbage` — runs `header.init::<T>()`, writes `value` through
`header_ptr.add(1)`, and finally inserts `header_ptr` into
`registed_gc_objects`, panicking when the insert reports the pointer was
already present.  There is no check of `minor_heap_size_limit` anywhere
in this function, and nothing in it touches the `State` generation
sets. -/
def GCFrame.allocate_gc_cell (α : Type) (s : State) (f : GCFrame) (t : Nat)
    (layoutSize : Nat) (headerPtr : Ptr) (garbage : GCHeader) (value : α) :
    AllocOutcome α :=
  let s' := { s with minor_heap_size := (s.minor_heap_size + layoutSize) % USIZE }
  let h := garbage.init t
  let dataPtr := headerPtr + GCHeader.sizeBytes
  let evs := [AllocEvent.fetchAddMinorSize layoutSize, AllocEvent.allocRaw headerPtr,
    AllocEvent.initHeader, AllocEvent.writeValue, AllocEvent.registerHeader headerPtr]
  if headerPtr ∈ f.registed_gc_objects then
    { state := s'
      frame := f
      cell := none
      header := h
      dataVal := value
      events := evs
      panicMsg := some fatalAllocMsg }
  else
    { state := s'
      frame := { f with registed_gc_objects := headerPtr :: f.registed_gc_objects }
      cell := some { header := headerPtr, data := dataPtr, tyTag := t }
      header := h
      dataVal := value
      events := evs
      panicMsg := none }

/-- `impl Drop for GCMut` (src/gc_box.rs:57-65).  The source body is
```
if self.prev_ptr != self.end_ptr { /* TODO: set header */ }
// TODO: if state is parallel scan, commit to rescan
unimplemented!()
```
The `if` compares the two cells (header-pointer identity) but its body is
empty; the rescan commit is only a TODO comment; the function then
unconditionally executes `unimplemented!()`, which panics.  The result is
the state as the drop leaves it together with the panic message.
(`State` has no current-stage field at all: the `GCStage` enum of
src/state.rs:33-44 is declared but stored nowhere, so "the collector is
in its parallel scan stage" is not even representable.) -/
def GCMut.drop (g : GCMut) (s : State) : State × Option String :=
  let _changed := !(GCCell.eq g.prev_ptr g.end_ptr)
  (s, some unimplementedMsg)

/-- A configuration with `minor_heap_size_limit = 100` bytes and otherwise
default-shaped values, for concrete evaluations. -/
def cfg0 : GCConfig :=
  { thread_pool_size := 2
    minor_gc_trigger_size := 10 * 1024 * 1024
    minor_heap_size_limit := 100
    major_heap_liveness := 3
    major_gc_pacer_rate := 2.0
    major_heap_size_limit := 0
    enable_imm_gen := false
    imm_liveness := 100 }

/-- A fresh collector state: STW flag clear, all counters zero, all
generation sets empty. -/
def st0 : State :=
  { config := cfg0
    stw := false
    start_minor_gc_flag := false
    start_major_gc_flag := false
    minor_heap_size := 0
    major_heap_size := 0
    imm_size := 0
    total_size := 0
    current_frame_count := 0
    minor_heap_roots := []
    minor_heap_gen := []
    minor_heap_marked := []
    minor_heap_dead := []
    major_heap_roots := []
    major_heap_gen := []
    major_heap_marked := []
    major_heap_rescan_list := []
    imm_gen := [] }

/-- `st0` with the STW flag set. -/
def st0stw : State :=
  { st0 with stw := true }

/-- `st0` with the minor byte counter exactly at `cfg0`'s
`minor_heap_size_limit`. -/
def stAtLimit : State :=
  { st0 with minor_heap_size := 100 }

/-- An empty frame. -/
def fr0 : GCFrame :=
  { registed_gc_objects := [], escaped_gc_objects := 0 }

/-- A frame that already has header pointer 1000 registered. -/
def fr1 : GCFrame :=
  { registed_gc_objects := [1000], escaped_gc_objects := 0 }

/-- Dirty leftover header bytes, as `alloc` may return them: pin bit set,
generation byte 7. -/
def garbDirty : GCHeader :=
  { liveness := 5, marked := true, pined := true, generation := 7, type_id := 9 }

/-- All-zero leftover header bytes. -/
def garbZero : GCHeader :=
  { liveness := 0, marked := false, pined := false, generation := 0, type_id := 0 }

/-- Claim C1 (code evaluation): dropping a write guard never appends to the
major rescan list and always panics with `unimplemented!()` — the barrier's
rescan commit is an unimplemented placeholder, for every guard and every
collector state, including guards whose two recorded cells differ. -/
theorem gcmut_drop_always_unimplemented (g : GCMut) (s : State) :
    (GCMut.drop g s).2 = some unimplementedMsg
    ∧ (GCMut.drop g s).1.major_heap_rescan_list = s.major_heap_rescan_list := by
  exact ⟨rfl, rfl⟩

/-- Claim C2 (counterexample): allocation does not zero the block and does
not set the generation.  With dirty allocator leftovers (`garbDirty`) the
returned header still has its pin bit set and generation byte 7, while
with zeroed leftovers the generation byte is 0 — so the header's
generation is whatever `alloc` left there, not a fixed "Minor" value, and
the memory is not zeroed. -/
theorem allocate_gc_cell_not_zeroed_cex :
    (GCFrame.allocate_gc_cell Nat st0 fr0 1 24 1000 garbDirty 0).header.pined = true
    ∧ (GCFrame.allocate_gc_cell Nat st0 fr0 1 24 1000 garbDirty 0).header.generation = 7
    ∧ (GCFrame.allocate_gc_cell Nat st0 fr0 1 24 1000 garbZero 0).header.generation = 0
    ∧ (GCFrame.allocate_gc_cell Nat st0 fr0 1 24 1000 garbDirty 0).panicMsg = none := by
  exact ⟨rfl, rfl, rfl, rfl⟩

/-- Claim C2 (amended): after `allocate_gc_cell`, the header at the
returned pointer has liveness 1, marked false and the type tag of `T`,
and the header is initialized before the value is written into the data
slot (see the event order); but the raw memory is obtained uninitialized
(`alloc`, not `alloc_zeroed`) and the `pined` and `generation` fields keep
the allocator's leftover bytes — in particular generation is not set to
Minor. -/
theorem allocate_gc_cell_header_postcondition (α : Type) (s : State) (f : GCFrame)
    (t sz p : Nat) (g : GCHeader) (v : α) :
    (GCFrame.allocate_gc_cell α s f t sz p g v).header.liveness = 1
    ∧ (GCFrame.allocate_gc_cell α s f t sz p g v).header.marked = false
    ∧ (GCFrame.allocate_gc_cell α s f t sz p g v).header.type_id = t
    ∧ (GCFrame.allocate_gc_cell α s f t sz p g v).header.pined = g.pined
    ∧ (GCFrame.allocate_gc_cell α s f t sz p g v).header.generation = g.generation
    ∧ (GCFrame.allocate_gc_cell α s f t sz p g v).events
        = [AllocEvent.fetchAddMinorSize sz, AllocEvent.allocRaw p,
           AllocEvent.initHeader, AllocEvent.writeValue, AllocEvent.registerHeader p] := by
  by_cases hp : p ∈ f.registed_gc_objects <;>
    simp [GCFrame.allocate_gc_cell, GCHeader.init, hp]

/-- Claim C3: `State::stw` panics exactly when the STW flag is already
set, `State::ctw` panics exactly when it is not set; in every other case
the call completes without panic and the single compare-and-swap toggles
the flag to the target value, leaving the rest of the state unchanged. -/
theorem stw_ctw_contract (s : State) :
    ((State.stwOp s).panicMsg.isSome = true ↔ s.stw = true)
    ∧ ((State.ctw s).panicMsg.isSome = true ↔ s.stw = false)
    ∧ (s.stw = false →
        (State.stwOp s).state = { s with stw := true } ∧ (State.stwOp s).panicMsg = none)
    ∧ (s.stw = true →
        (State.ctw s).state = { s with stw := false } ∧ (State.ctw s).panicMsg = none) := by
  cases hs : s.stw <;> simp [State.stwOp, State.ctw, hs]

/-- Claim C3 (witness): from a fresh state, `stw` succeeds and sets the
flag; from a stopped state, `ctw` succeeds and clears it; `stw` on a
stopped state and `ctw` on a running state panic. -/
theorem stw_ctw_contract_witness :
    (State.stwOp st0).state.stw = true
    ∧ (State.ctw st0stw).state.stw = false
    ∧ (State.stwOp st0stw).panicMsg.isSome = true
    ∧ (State.ctw st0).panicMsg.isSome = true := by
  have h0 := stw_ctw_contract st0
  have h1 := stw_ctw_contract st0stw
  refine ⟨?_, ?_, ?_, ?_⟩
  · rw [(h0.2.2.1 rfl).1]
  · rw [(h1.2.2.2 rfl).1]
  · exact h1.1.mpr rfl
  · exact h0.2.1.mpr rfl

/-- Claim C4 (counterexample): with the minor byte counter already exactly
at `minor_heap_size_limit` (100), allocating a 24-byte block completes
with no panic and pushes the counter to 124, past the limit: allocation
performs no limit check and exceeding the limit is not fatal. -/
theorem allocate_gc_cell_ignores_limit_cex :
    (GCFrame.allocate_gc_cell Nat stAtLimit fr0 1 24 1000 garbZero 0).panicMsg = none
    ∧ (GCFrame.allocate_gc_cell Nat stAtLimit fr0 1 24 1000 garbZero 0).state.minor_heap_size = 124
    ∧ stAtLimit.config.minor_heap_size_limit = 100 := by
  exact ⟨rfl, by decide, rfl⟩

/-- Claim C4 (amended): `allocate_gc_cell` never consults
`minor_heap_size_limit`; the only condition under which it panics is a
registration collision, so an allocation that drives the counter past the
limit succeeds exactly as one that stays at or under it. -/
theorem allocate_gc_cell_panics_iff_collision (α : Type) (s : State) (f : GCFrame)
    (t sz p : Nat) (g : GCHeader) (v : α) :
    (GCFrame.allocate_gc_cell α s f t sz p g v).panicMsg = none
      ↔ p ∉ f.registed_gc_objects := by
  by_cases hp : p ∈ f.registed_gc_objects <;>
    simp [GCFrame.allocate_gc_cell, hp, fatalAllocMsg]

/-- Claim C5: in the absence of `usize` wrap-around, an allocation of a
block of layout size `sz` increases the process-wide minor byte counter
by exactly `sz`, and changes no other size counter. -/
theorem allocate_gc_cell_size_accounting (α : Type) (s : State) (f : GCFrame)
    (t sz p : Nat) (g : GCHeader) (v : α)
    (hof : s.minor_heap_size + sz < USIZE) :
    (GCFrame.allocate_gc_cell α s f t sz p g v).state.minor_heap_size
        = s.minor_heap_size + sz
    ∧ (GCFrame.allocate_gc_cell α s f t sz p g v).state.major_heap_size = s.major_heap_size
    ∧ (GCFrame.allocate_gc_cell α s f t sz p g v).state.imm_size = s.imm_size
    ∧ (GCFrame.allocate_gc_cell α s f t sz p g v).state.total_size = s.total_size := by
  have hm : (s.minor_heap_size + sz) % USIZE = s.minor_heap_size + sz :=
    Nat.mod_eq_of_lt hof
  by_cases hp : p ∈ f.registed_gc_objects <;>
    simp [GCFrame.allocate_gc_cell, hp, hm]

/-- Claim C5 (witness): allocating a 24-byte block from the fresh state
takes the minor counter from 0 to 24 and leaves the other counters at
0. -/
theorem allocate_gc_cell_size_accounting_witness :
    (GCFrame.allocate_gc_cell Nat st0 fr0 1 24 1000 garbZero 0).state.minor_heap_size
        = st0.minor_heap_size + 24
    ∧ (GCFrame.allocate_gc_cell Nat st0 fr0 1 24 1000 garbZero 0).state.total_size
        = st0.total_size := by
  have h := allocate_gc_cell_size_accounting Nat st0 fr0 1 24 1000 garbZero 0
    (by decide)
  exact ⟨h.1, h.2.2.2⟩

/-- Claim C6: registering a header pointer already present in the frame's
`registed_gc_objects` set makes `allocate_gc_cell` panic (the `insert`
returns false and the `panic!` fires); a pointer not already present is
inserted and the call completes without panic. -/
theorem allocate_gc_cell_double_registration (α : Type) (s : State) (f : GCFrame)
    (t sz p : Nat) (g : GCHeader) (v : α) :
    (p ∈ f.registed_gc_objects →
      (GCFrame.allocate_gc_cell α s f t sz p g v).panicMsg = some fatalAllocMsg
      ∧ (GCFrame.allocate_gc_cell α s f t sz p g v).cell = none)
    ∧ (p ∉ f.registed_gc_objects →
      (GCFrame.allocate_gc_cell α s f t sz p g v).panicMsg = none
      ∧ (GCFrame.allocate_gc_cell α s f t sz p g v).frame.registed_gc_objects
          = p :: f.registed_gc_objects) := by
  constructor <;> intro hp <;> simp [GCFrame.allocate_gc_cell, hp]

/-- Claim C6 (witness): registering pointer 1000 into a frame that already
holds it panics with the allocation failure message; registering it into
an empty frame succeeds and records it. -/
theorem allocate_gc_cell_double_registration_witness :
    (GCFrame.allocate_gc_cell Nat st0 fr1 1 24 1000 garbZero 0).panicMsg = some fatalAllocMsg
    ∧ (GCFrame.allocate_gc_cell Nat st0 fr0 1 24 1000 garbZero 0).panicMsg = none := by
  have h1 := (allocate_gc_cell_double_registration Nat st0 fr1 1 24 1000 garbZero 0).1
    (by decide)
  have h0 := (allocate_gc_cell_double_registration Nat st0 fr0 1 24 1000 garbZero 0).2
    (by decide)
  exact ⟨h1.1, h0.1⟩

/-- Claim C7 (code evaluation): `State::minor_heap_gen_gc` has an empty
body; it moves nothing to the minor dead set, clears no marks, and leaves
the minor byte counter and every minor generation set exactly as they
were — the sweep described by the claim is not implemented. -/
theorem minor_heap_gen_gc_is_noop (s : State) :
    (State.minor_heap_gen_gc s).minor_heap_dead = s.minor_heap_dead
    ∧ (State.minor_heap_gen_gc s).minor_heap_gen = s.minor_heap_gen
    ∧ (State.minor_heap_gen_gc s).minor_heap_marked = s.minor_heap_marked
    ∧ (State.minor_heap_gen_gc s).minor_heap_size = s.minor_heap_size := by
  exact ⟨rfl, rfl, rfl, rfl⟩

/-- Claim C8 (counterexample): allocating from a state whose minor
generation set is empty succeeds, yet afterwards the new header pointer
(1000) is still not a member of `State.minor_heap_gen` — the frame does
not register the object with the State's minor generation. -/
theorem allocate_gc_cell_not_in_minor_gen_cex :
    (GCFrame.allocate_gc_cell Nat st0 fr0 1 24 1000 garbZero 0).panicMsg = none
    ∧ ¬ 1000 ∈ (GCFrame.allocate_gc_cell Nat st0 fr0 1 24 1000 garbZero 0).state.minor_heap_gen := by
  exact ⟨rfl, by decide⟩

/-- Claim C8 (amended): immediately after a successful allocation the new
header pointer is a member of the allocating frame's own
`registed_gc_objects` set, while the State's minor generation set — and
every other generation set — is left unchanged by allocation. -/
theorem allocate_gc_cell_registers_in_frame (α : Type) (s : State) (f : GCFrame)
    (t sz p : Nat) (g : GCHeader) (v : α) :
    (GCFrame.allocate_gc_cell α s f t sz p g v).state.minor_heap_gen = s.minor_heap_gen
    ∧ (GCFrame.allocate_gc_cell α s f t sz p g v).state.minor_heap_roots = s.minor_heap_roots
    ∧ (GCFrame.allocate_gc_cell α s f t sz p g v).state.major_heap_gen = s.major_heap_gen
    ∧ (p ∉ f.registed_gc_objects →
        p ∈ (GCFrame.allocate_gc_cell α s f t sz p g v).frame.registed_gc_objects) := by
  by_cases hp : p ∈ f.registed_gc_objects <;>
    simp [GCFrame.allocate_gc_cell, hp]

/-- Claim C8 (witness): allocating header pointer 1000 through an empty
frame leaves the State's minor generation set as it was and records 1000
in the frame's own set. -/
theorem allocate_gc_cell_registers_in_frame_witness :
    (GCFrame.allocate_gc_cell Nat st0 fr0 1 24 1000 garbZero 0).state.minor_heap_gen
        = st0.minor_heap_gen
    ∧ 1000 ∈ (GCFrame.allocate_gc_cell Nat st0 fr0 1 24 1000 garbZero 0).frame.registed_gc_objects := by
  have h := allocate_gc_cell_registers_in_frame Nat st0 fr0 1 24 1000 garbZero 0
  exact ⟨h.1, h.2.2.2 (by decide)⟩

/-- Claim C9: `GCCell` equality is header-pointer identity — two cells
compare equal exactly when they carry the same header pointer; in
particular two views of the same allocation with different data pointers
or different type tags compare equal, whatever the data contents. -/
theorem gccell_eq_iff_header (c1 c2 : GCCell) :
    (GCCell.eq c1 c2 = true ↔ c1.header = c2.header)
    ∧ (∀ h d1 d2 t1 t2 : Nat,
        GCCell.eq { header := h, data := d1, tyTag := t1 }
          { header := h, data := d2, tyTag := t2 } = true) := by
  constructor
  · simp [GCCell.eq]
  · intro h d1 d2 t1 t2
    simp [GCCell.eq]

/-- Claim C10: when `State::stw` (resp. `State::ctw`) hits its fatal case
the failed compare-and-swap leaves the whole state — in particular the
STW flag — unchanged, and the `start_stw` (resp. `end_stw`) monitoring
callback has already been invoked before the flag transition was
attempted, so it fires on the fatal path too. -/
theorem stw_ctw_fatal_path_flag_and_callback (s : State) :
    (s.stw = true →
      (State.stwOp s).state = s
      ∧ (State.stwOp s).events = [MonEvent.startStw]
      ∧ (State.stwOp s).panicMsg.isSome = true)
    ∧ (s.stw = false →
      (State.ctw s).state = s
      ∧ (State.ctw s).events = [MonEvent.endStw]
      ∧ (State.ctw s).panicMsg.isSome = true) := by
  cases hs : s.stw <;> simp [State.stwOp, State.ctw, hs]

/-- Claim C10 (witness): `stw` on an already-stopped state and `ctw` on a
running state both leave the flag as it was and still emit their
monitoring callback. -/
theorem stw_ctw_fatal_path_flag_and_callback_witness :
    (State.stwOp st0stw).state.stw = true
    ∧ (State.stwOp st0stw).events = [MonEvent.startStw]
    ∧ (State.ctw st0).state.stw = false
    ∧ (State.ctw st0).events = [MonEvent.endStw] := by
  have h1 := (stw_ctw_fatal_path_flag_and_callback st0stw).1 rfl
  have h0 := (stw_ctw_fatal_path_flag_and_callback st0).2 rfl
  refine ⟨?_, h1.2.1, ?_, h0.2.1⟩
  · rw [h1.1]
    rfl
  · rw [h0.1]
    rfl

end CgcRs
